import Mathlib

/-!
Verification of the SWQA repository (cppcheck.py, clangformat.py).

The two Python modules wrap external tools (cppcheck, clang-format): they
translate JSON-loaded configurations into command-line argument strings,
optionally generate a suppression-list text file, invoke the tool through a
shell, and persist its output.

The shallow embedding below models:
  * the external world (`PyEnv`): current working directory, environment
    variable expansion, file/directory existence, `os.path.realpath`,
    `os.path.relpath`, glob expansion, and the shell (command and working
    directory mapped to exit code, stdout, stderr);
  * Python exceptions as `PyError` values returned through `Except`;
  * filesystem side effects (directory creation, file writes, process
    invocations) as explicit effect traces returned alongside results.

Each `def` mirrors one function, method or property of the source, keeping
the source's names and structure (dict keys become structure fields; the
`self._raw_config` dict of a `CppCheckConfig` becomes `CppCheckRawConfig`,
and the class's properties become functions on it).
-/

/-- A Python exception, as relevant to these modules. -/
inductive PyError where
  | typeError
  | valueError
  | indexError
  | runtimeError (msg : String)
  deriving DecidableEq, Repr

/-- A dynamically typed Python value (only the shapes `version` touches). -/
inductive PyVal where
  | int (i : Int)
  | str (s : String)
  | floatLit (s : String)
  deriving DecidableEq, Repr

/-- The ambient world the Python code interacts with: `os.getcwd`,
`os.path.expandvars`, `os.path.isfile`, `os.path.isdir`, `os.path.realpath`,
`os.path.relpath`, `glob.glob` and the system shell (`Popen`, returning
exit code, decoded stdout and decoded stderr). -/
structure PyEnv where
  cwd : String
  expandvars : String → String
  isFile : String → Bool
  isDir : String → Bool
  realpath : String → String
  relpath : String → String → String
  glob : String → Bool → List String
  shell : String → String → Int × String × String

/-- A filesystem or process side effect performed by the wrappers. -/
inductive Effect where
  | mkdir (path : String)
  | fileWrite (path : String) (content : String)
  | proc (command : String) (workingDir : String)
  deriving DecidableEq, Repr

/-! ### Python string and path primitives -/

/-- Python `sep.join(l)`. -/
def pyJoin (sep : String) : List String → String
  | [] => ""
  | [a] => a
  | a :: b :: rest => a ++ sep ++ pyJoin sep (b :: rest)

/-- `p` is a prefix of `s` (character-level `String.startsWith`). -/
def strStartsWith (s p : String) : Bool := p.data.isPrefixOf s.data

/-- `p` is a suffix of `s` (character-level `String.endsWith`). -/
def strEndsWith (s p : String) : Bool := p.data.reverse.isPrefixOf s.data.reverse

/-- posix `os.path.join(a, b)` (two arguments; drive letters not modelled). -/
def osPathJoin (a b : String) : String :=
  if strStartsWith b "/" then b
  else if a = "" then b
  else if strEndsWith a "/" then a ++ b
  else a ++ "/" ++ b

/-- Longest common prefix of the character lists of two strings:
`os.path.commonprefix` on a two-element list of strings. -/
def commonPrefix2Aux : List Char → List Char → List Char
  | a :: as, b :: bs => if a = b then a :: commonPrefix2Aux as bs else []
  | _, _ => []

/-- `os.path.commonprefix([a, b])` for two strings. -/
def commonPrefix2 (a b : String) : String := ⟨commonPrefix2Aux a.data b.data⟩

/-- The part of `s` before the first occurrence of `sep`, or all of `s` when
`sep` does not occur: Python `s.split(sep, 1)[0]`. -/
def beforeFirstAux (sep : List Char) : List Char → List Char
  | [] => []
  | c :: rest => if sep.isPrefixOf (c :: rest) then [] else c :: beforeFirstAux sep rest

/-- Python `s.split(sep, 1)[0]` for a non-empty separator. -/
def beforeFirst (sep s : String) : String := ⟨beforeFirstAux sep.data s.data⟩

/-- Python `s.strip(c)` for a single strip character `c`. -/
def pyStrip (c : Char) (s : String) : String :=
  ⟨(((s.data.dropWhile (· = c)).reverse.dropWhile (· = c)).reverse)⟩

/-- Split a character list on every occurrence of `c`, keeping empty pieces
(the semantics of Python `s.split(c)` with an explicit one-character
separator). -/
def splitChar (c : Char) : List Char → List (List Char)
  | [] => [[]]
  | x :: xs =>
    if x = c then [] :: splitChar c xs
    else
      match splitChar c xs with
      | [] => [[x]]
      | y :: ys => (x :: y) :: ys

/-- The space-separated tokens of a command string (empty tokens kept). -/
def tokensSp (s : String) : List String := (splitChar ' ' s.data).map fun l => ⟨l⟩

/-- The lines of a file content string (split on every newline). -/
def linesOf (s : String) : List String := (splitChar '\n' s.data).map fun l => ⟨l⟩

/-- How many space-separated tokens of `s` are exactly `-j`. -/
def jCount (s : String) : Nat := (tokensSp s).count "-j"

/-- Python `str.split()` with no argument: split on whitespace runs,
dropping empty pieces. -/
def pySplitWsAux (acc : List Char) : List Char → List (List Char)
  | [] => if acc = [] then [] else [acc.reverse]
  | c :: rest =>
    if c.isWhitespace then
      if acc = [] then pySplitWsAux [] rest else acc.reverse :: pySplitWsAux [] rest
    else pySplitWsAux (c :: acc) rest

/-- Python `s.split()` on a string. -/
def pySplitWs (s : String) : List String := (pySplitWsAux [] s.data).map fun l => ⟨l⟩

/-- Python `s.strip()` with no argument: strip whitespace from both ends. -/
def pyStripWs (s : String) : String :=
  ⟨(((s.data.dropWhile Char.isWhitespace).reverse.dropWhile Char.isWhitespace).reverse)⟩

/-- Python truthiness of a string (`if s:`). -/
def pyTruthyStr (s : String) : Bool := !s.data.isEmpty

/-- Python truthiness of a string-or-None JSON field. -/
def pyTruthyOptStr : Option String → Bool
  | none => false
  | some s => pyTruthyStr s

/-- Python truthiness of a `PyVal`. (`floatLit` is approximated as truthy;
no reachable code path depends on it.) -/
def pyTruthy : PyVal → Bool
  | .int i => decide (i ≠ 0)
  | .str s => pyTruthyStr s
  | .floatLit _ => true

/-- Python subscript `v[i]` on a `PyVal`: on a string it yields the
one-character string at that index or raises `IndexError`; on other values
it raises `TypeError`. -/
def pySubscript (v : PyVal) (i : Nat) : Except PyError PyVal :=
  match v with
  | .str s =>
    match s.data.get? i with
    | some ch => .ok (.str ⟨[ch]⟩)
    | none => .error .indexError
  | _ => .error .typeError

/-- Python `v.split()` on a `PyVal`: only strings have the method. -/
def pyMethodSplit (v : PyVal) : Except PyError (List String) :=
  match v with
  | .str s => .ok (pySplitWs s)
  | _ => .error .typeError

/-- Models Python `float(s)`. Only reachable through dead code in
`CppCheck.version` (there `formatted` always has length at most one, so
`formatted[1]` raises first); the literal is carried symbolically. -/
def pyFloatConv (s : String) : Except PyError PyVal := .ok (.floatLit s)

/-- Python tuple unpacking `a, b = v` of a sequence `v` into exactly two
targets: raises `ValueError` when `v` does not have exactly two elements. -/
def pyUnpack2 : List PyVal → Except PyError (PyVal × PyVal)
  | [a, b] => .ok (a, b)
  | _ => .error .valueError

/-! ### clangformat.py -/

/-- One entry of the `directories` list of a clang-format configuration. -/
structure DirSpec where
  path : String
  recursive : Bool
  extensions : List String
  deriving DecidableEq, Repr

/-- The `_raw_config` dict loaded by `ClangFormatConfig.__init__`. -/
structure ClangFormatRawConfig where
  inplace : Bool
  style : String
  files : List String
  directories : List DirSpec
  deriving DecidableEq, Repr

/-- `ClangFormatConfig.inplace`: `-i` when enabled, else the empty string. -/
def ClangFormatConfig.inplace (c : ClangFormatRawConfig) : String :=
  if c.inplace then "-i" else ""

/-- `ClangFormatConfig.style`: `-style=<name>`. -/
def ClangFormatConfig.style (c : ClangFormatRawConfig) : String :=
  "-style=" ++ c.style

/-- `ClangFormatConfig.build_file_command`: resolve the file against the
working directory and join `[inplace, style, path]` with spaces. -/
def ClangFormatConfig.build_file_command (env : PyEnv) (c : ClangFormatRawConfig)
    (file working_dir : String) : String :=
  let path := env.realpath (osPathJoin working_dir file)
  pyJoin " " [ClangFormatConfig.inplace c, ClangFormatConfig.style c, path]

/-- `ClangFormatConfig.build_directory_command`: resolve the directory, glob
every extension (with `**` inserted when recursive), and join
`[inplace, style, files]` with spaces. -/
def ClangFormatConfig.build_directory_command (env : PyEnv) (c : ClangFormatRawConfig)
    (dir_obj : DirSpec) (working_dir : String) : String :=
  let path := env.realpath (osPathJoin working_dir dir_obj.path)
  let files := List.flatten (dir_obj.extensions.map fun ext =>
    let search_start :=
      if dir_obj.recursive then osPathJoin (osPathJoin path "**") ext
      else osPathJoin path ext
    env.glob search_start dir_obj.recursive)
  pyJoin " " [ClangFormatConfig.inplace c, ClangFormatConfig.style c, pyJoin " " files]

/-- The shared body of the two loops of `ClangFormatter.execute`: run the
command built for each item in order; on the first invocation with non-empty
stderr stop with `some` of that exit code. Also returns the trace of the
commands actually invoked. -/
def ClangFormatter.runLoop (env : PyEnv) (working_dir : String) (cmdOf : α → String) :
    List α → Option Int × List String
  | [] => (none, [])
  | x :: rest =>
    let command := cmdOf x
    let r := env.shell command working_dir
    if r.2.2 ≠ "" then (some r.1, [command])
    else
      let p := ClangFormatter.runLoop env working_dir cmdOf rest
      (p.1, command :: p.2)

/-- The command run for one file of `ClangFormatter.execute`
(template `exe -verbose <file command>`). -/
def ClangFormatter.fileCommand (env : PyEnv) (c : ClangFormatRawConfig)
    (clang_format_exe project_file_dir : String) (file : String) : String :=
  clang_format_exe ++ " -verbose " ++ ClangFormatConfig.build_file_command env c file project_file_dir

/-- The command run for one directory entry of `ClangFormatter.execute`. -/
def ClangFormatter.dirCommand (env : PyEnv) (c : ClangFormatRawConfig)
    (clang_format_exe project_file_dir : String) (d : DirSpec) : String :=
  clang_format_exe ++ " -verbose " ++ ClangFormatConfig.build_directory_command env c d project_file_dir

/-- `ClangFormatter.execute`: run clang-format once per listed file, then
once per listed directory, stopping at the first non-empty stderr and
returning that step's exit code, else 0. The second component is the trace
of the commands invoked. -/
def ClangFormatter.execute (env : PyEnv) (c : ClangFormatRawConfig)
    (clang_format_exe project_file_dir working_dir : String) : Int × List String :=
  match ClangFormatter.runLoop env working_dir
      (ClangFormatter.fileCommand env c clang_format_exe project_file_dir) c.files with
  | (some rc, tr) => (rc, tr)
  | (none, tr1) =>
    match ClangFormatter.runLoop env working_dir
        (ClangFormatter.dirCommand env c clang_format_exe project_file_dir) c.directories with
    | (some rc, tr2) => (rc, tr1 ++ tr2)
    | (none, tr2) => (0, tr1 ++ tr2)

/-- All commands `ClangFormatter.execute` would build: one per file, then
one per directory entry. -/
def ClangFormatter.allCommands (env : PyEnv) (c : ClangFormatRawConfig)
    (clang_format_exe project_file_dir : String) : List String :=
  c.files.map (ClangFormatter.fileCommand env c clang_format_exe project_file_dir)
    ++ c.directories.map (ClangFormatter.dirCommand env c clang_format_exe project_file_dir)

/-- Modelled from the spec (§4.4, §7): run the commands in order; any
invocation with non-empty stderr is a hard stop — remaining commands are
skipped and that step's exit code is returned; if every invocation produces
empty stderr the result is 0. The second component is the trace of the
commands invoked. -/
def clangExecuteSpec (env : PyEnv) (working_dir : String) : List String → Int × List String
  | [] => (0, [])
  | cmd :: rest =>
    let r := env.shell cmd working_dir
    if r.2.2 ≠ "" then (r.1, [cmd])
    else
      let p := clangExecuteSpec env working_dir rest
      (p.1, cmd :: p.2)

/-! ### cppcheck.py -/

/-- One entry of the `suppression` list of a cppcheck configuration.
`line` holds the string rendering that `'{}:{}:{}'.format` gives the JSON
value (e.g. `"42"` for the number 42). -/
structure SuppressionEntry where
  error_id : String
  filename : String
  line : String
  comment : String
  deriving DecidableEq, Repr

/-- The `_raw_config` dict of a `CppCheckConfig` (one named configuration of
the loaded JSON file). A JSON `null` suppression list is modelled as `[]`:
the source only ever tests its truthiness (`if config_suppression:`) and
iterates it, and `None` and `[]` behave identically there. -/
structure CppCheckRawConfig where
  suppression : List SuppressionEntry
  files : List String
  directories : List String
  includes : List String
  excludes : List String
  defines : List String
  un_defines : List String
  message_level : List String
  add_ons : Bool
  threads : Nat
  output_format : String
  output_template : Option String
  output_dir : String
  options : List String
  standard : String
  platform : String
  on_error_exit_code : Int
  deriving DecidableEq, Repr

/-- `CppCheckConfig.files`: `' '.join(raw['files'])`. -/
def CppCheckConfig.files (c : CppCheckRawConfig) : String := pyJoin " " c.files

/-- `CppCheckConfig.directories`: `' '.join(raw['directories'])`. -/
def CppCheckConfig.directories (c : CppCheckRawConfig) : String := pyJoin " " c.directories

/-- `CppCheckConfig.includes`: each include prefixed with `-I`, space-joined. -/
def CppCheckConfig.includes (c : CppCheckRawConfig) : String :=
  pyJoin " " (c.includes.map fun include_file => "-I" ++ include_file)

/-- `CppCheckConfig.excludes`: each exclude prefixed with `-i`, space-joined. -/
def CppCheckConfig.excludes (c : CppCheckRawConfig) : String :=
  pyJoin " " (c.excludes.map fun exclude_file => "-i" ++ exclude_file)

/-- `CppCheckConfig.defines`: each define prefixed with `-D`, space-joined,
then `.strip()`ed. -/
def CppCheckConfig.defines (c : CppCheckRawConfig) : String :=
  pyStripWs (pyJoin " " (c.defines.map fun define => "-D" ++ define))

/-- `CppCheckConfig.un_defines`: each un-define prefixed with `-i` (the
exclude flag, as in the source), space-joined. -/
def CppCheckConfig.un_defines (c : CppCheckRawConfig) : String :=
  pyJoin " " (c.un_defines.map fun un_define => "-i" ++ un_define)

/-- `CppCheckConfig.message_level`: `--enable=` followed by the
comma-joined, stripped levels. -/
def CppCheckConfig.message_level (c : CppCheckRawConfig) : String :=
  "--enable=" ++ pyStripWs (pyJoin "," c.message_level)

/-- `CppCheckConfig.threads`: `-j <threads>`. -/
def CppCheckConfig.threads (c : CppCheckRawConfig) : String :=
  "-j " ++ toString c.threads

/-- `CppCheckConfig.output_format`: the user template takes priority over
the output format field when it is truthy (non-null, non-empty). -/
def CppCheckConfig.output_format (c : CppCheckRawConfig) : String :=
  if pyTruthyOptStr c.output_template then
    "--template=\"" ++ c.output_template.getD "" ++ "\""
  else
    "--template=\"" ++ c.output_format ++ "\""

/-- `CppCheckConfig.options`: `' '.join(raw['options'])`. -/
def CppCheckConfig.options (c : CppCheckRawConfig) : String := pyJoin " " c.options

/-- `CppCheckConfig.standard`: `--std=<v>`. -/
def CppCheckConfig.standard (c : CppCheckRawConfig) : String := "--std=" ++ c.standard

/-- `CppCheckConfig.platform`: `--platform=<v>`. -/
def CppCheckConfig.platform (c : CppCheckRawConfig) : String := "--platform=" ++ c.platform

/-- `CppCheckConfig.error_exit_code`: `--error-exitcode=<v>`. -/
def CppCheckConfig.error_exit_code (c : CppCheckRawConfig) : String :=
  "--error-exitcode=" ++ toString c.on_error_exit_code

/-- The loop body of `generate_suppression_list` for one entry: expand
environment variables in the filename, raise `RuntimeError` when the result
is not an existing file, else render the `// <comment>` line followed by the
`<error_id>:<filename>:<line>` suppression line (collapsed at `::` and
stripped of colons) and a trailing blank line, exactly as the two `f.write`
calls produce. -/
def CppCheckConfig.renderSuppressionEntry (env : PyEnv) (item : SuppressionEntry) :
    Except PyError String :=
  let filename := env.expandvars item.filename
  if !env.isFile filename then
    .error (.runtimeError ("Invalid path: " ++ filename))
  else
    let output_string := item.error_id ++ ":" ++ filename ++ ":" ++ item.line
    let output_string := beforeFirst "::" output_string
    let output_string := pyStrip ':' output_string
    .ok ("// " ++ item.comment ++ "\n" ++ output_string ++ "\n\n")

/-- The `for item in config_suppression` loop of `generate_suppression_list`:
accumulates the file content written so far and stops at the first raising
entry. Returns the content flushed to the (already opened) file and the
exception, if any. -/
def CppCheckConfig.suppressionLoop (env : PyEnv) :
    List SuppressionEntry → String → String × Option PyError
  | [], acc => (acc, none)
  | item :: rest, acc =>
    match CppCheckConfig.renderSuppressionEntry env item with
    | .error e => (acc, some e)
    | .ok chunk => CppCheckConfig.suppressionLoop env rest (acc ++ chunk)

/-- `CppCheckConfig.generate_suppression_list`. Returns the list of file
writes performed (`open(act_out_file, 'w')` creates the file even when a
later entry raises; the content flushed at close time is what the loop wrote
before raising) together with the function's result. When the suppression
list is empty (or null) `act_out_file` stays `None` and the final
`os.path.relpath(act_out_file, os.path.commonprefix([os.getcwd(),
act_out_file]))` raises `TypeError` (`os.path.commonprefix` compares the
string `os.getcwd()` with `None`). -/
def CppCheckConfig.generate_suppression_list (env : PyEnv) (c : CppCheckRawConfig)
    (name results_dir : String) : List (String × String) × Except PyError String :=
  if c.suppression.isEmpty then ([], .error .typeError)
  else
    let act_out_file := osPathJoin results_dir (name ++ "_suppression_list.txt")
    let p := CppCheckConfig.suppressionLoop env c.suppression ""
    match p.2 with
    | some e => ([(act_out_file, p.1)], .error e)
    | none =>
      ([(act_out_file, p.1)],
        .ok (env.relpath act_out_file (commonPrefix2 env.cwd act_out_file)))

/-- `CppCheckConfig.build_command`: join the twelve base fragments with
spaces, then prepend (innermost first) the suppression-list flag when the
generated path is truthy, `--dump` when add-ons are enabled, and the
free-form options when non-empty. Propagates the exception of
`generate_suppression_list` (and its file writes). -/
def CppCheckConfig.build_command (env : PyEnv) (c : CppCheckRawConfig)
    (name results_dir : String) : List (String × String) × Except PyError String :=
  let command := pyJoin " "
    [CppCheckConfig.threads c, CppCheckConfig.output_format c,
     CppCheckConfig.message_level c, CppCheckConfig.defines c,
     CppCheckConfig.un_defines c, CppCheckConfig.standard c,
     CppCheckConfig.platform c, CppCheckConfig.error_exit_code c,
     CppCheckConfig.includes c, CppCheckConfig.excludes c,
     CppCheckConfig.directories c, CppCheckConfig.files c]
  match CppCheckConfig.generate_suppression_list env c name results_dir with
  | (w, .error e) => (w, .error e)
  | (w, .ok suppression_list) =>
    let command :=
      if pyTruthyStr suppression_list then
        pyJoin " " ["--suppressions-list=" ++ suppression_list, command]
      else command
    let command := if c.add_ons then pyJoin " " ["--dump", command] else command
    let command :=
      if pyTruthyStr (CppCheckConfig.options c) then
        pyJoin " " [CppCheckConfig.options c, command]
      else command
    (w, .ok command)

/-- `CppCheck.cppcheck`: prefix the command with the executable path and run
it through the shell in the given working directory. -/
def CppCheck.cppcheck (env : PyEnv) (cppcheck_exe cmd working_dir : String) :
    Int × String × String :=
  env.shell (cppcheck_exe ++ " " ++ cmd) working_dir

/-- `CppCheck.version`: runs `--version` and unpacks the three-element
result of `cppcheck` (`return_code, stdout, stderr`) into the two targets
`_, cmd_output`, which raises `ValueError` before the output is examined.
The remainder mirrors the source's (unreachable) handling of `cmd_output`. -/
def CppCheck.version (env : PyEnv) (cppcheck_exe : String) : Except PyError PyVal :=
  let r := CppCheck.cppcheck env cppcheck_exe "--version" env.cwd
  match pyUnpack2 [.int r.1, .str r.2.1, .str r.2.2] with
  | .error e => .error e
  | .ok q =>
    let cmd_output := q.2
    if pyTruthy cmd_output then
      match pySubscript cmd_output 0 with
      | .error e => .error e
      | .ok c0 =>
        match pyMethodSplit c0 with
        | .error e => .error e
        | .ok formatted =>
          match formatted.get? 1 with
          | none => .error .indexError
          | some f1 => pyFloatConv f1
    else .ok (.str "unknown")

/-- `CppCheck.execute`: look the configuration up by name; when absent
return 0 with no side effects. When present, bind the working directory
(the `cpp_working_dir` setter creates the results directory when missing),
build the command (which may raise), run it through the shell, and write the
stdout and stderr log files. Returns the effect trace and the result. -/
def CppCheck.execute (env : PyEnv) (cppcheck_exe : String)
    (configurations : List (String × CppCheckRawConfig))
    (config working_dir : String) : List Effect × Except PyError Int :=
  match List.lookup config configurations with
  | none => ([], .ok 0)
  | some cfg =>
    let results_dir := osPathJoin (osPathJoin working_dir cfg.output_dir) config
    let mkdirEffs := if env.isDir results_dir then [] else [Effect.mkdir results_dir]
    match CppCheckConfig.build_command env cfg config results_dir with
    | (w, .error e) => (mkdirEffs ++ w.map fun p => Effect.fileWrite p.1 p.2, .error e)
    | (w, .ok command) =>
      let full_command := cppcheck_exe ++ " " ++ command
      let r := CppCheck.cppcheck env cppcheck_exe command working_dir
      let log_file := osPathJoin results_dir (config ++ "_log.txt")
      let err_file := osPathJoin results_dir (config ++ "_err.txt")
      (mkdirEffs ++ (w.map fun p => Effect.fileWrite p.1 p.2) ++
        [Effect.proc full_command working_dir,
         Effect.fileWrite log_file r.2.1,
         Effect.fileWrite err_file r.2.2],
       .ok r.1)

/-! ### Concrete instances used by witnesses and counterexamples -/

/-- A deterministic world: every path is an existing file and directory,
environment expansion and `realpath` are the identity, `relpath` returns its
first argument, globs are empty and every shell call succeeds quietly. -/
def envId : PyEnv where
  cwd := "/cwd"
  expandvars := id
  isFile := fun _ => true
  isDir := fun _ => true
  realpath := id
  relpath := fun a _ => a
  glob := fun _ _ => []
  shell := fun _ _ => (0, "", "")

/-- A world in which no path is an existing file. -/
def envNoFiles : PyEnv := { envId with isFile := fun _ => false }

/-- A world in which every non-empty path is an existing file (as in real
Python, `os.path.isfile('')` is false). -/
def envNonEmptyFiles : PyEnv := { envId with isFile := fun s => !(s == "") }

/-- A world in which only the path `good` is an existing file. -/
def envGoodOnly : PyEnv := { envId with isFile := fun s => s == "good" }

/-- A small, fully populated cppcheck configuration. -/
def cfgBase : CppCheckRawConfig where
  suppression := [⟨"id1", "good", "1", "c1"⟩]
  files := ["a.cpp"]
  directories := []
  includes := []
  excludes := []
  defines := []
  un_defines := []
  message_level := ["all"]
  add_ons := false
  threads := 4
  output_format := "gcc"
  output_template := none
  output_dir := "out"
  options := []
  standard := "c++17"
  platform := "native"
  on_error_exit_code := 1

/-- Combine the outcome of one early-stopping loop with the outcome of the
remaining work: an early stop discards the rest, otherwise results chain. -/
def combineRun : Option Int × List String → Int × List String → Int × List String
  | (some rc, tr), _ => (rc, tr)
  | (none, tr), q => (q.1, tr ++ q.2)

/-- A clang-format configuration with one file and one directory entry. -/
def cfgCF : ClangFormatRawConfig :=
  ⟨true, "llvm", ["a.cpp"], [⟨"src", false, ["*.cpp"]⟩]⟩

/-- Configuration for the C2 witness: a valid entry followed by a bad one. -/
def cfgC2W : CppCheckRawConfig :=
  { cfgBase with suppression := [⟨"id1", "good", "1", "c1"⟩, ⟨"id2", "bad", "2", "c2"⟩] }

/-- Modelled from the spec (§4.2): the fixed flag order of `build_command`,
outermost prepend first — free-form options, `--dump` when add-ons are
enabled, the suppression-list flag when the generated path is truthy, then
the twelve base fragments threads, output format, message levels, defines,
un-defines, standard, platform, error-exit-code, includes, excludes,
directories, files. -/
def CppCheckConfig.orderedFragments (c : CppCheckRawConfig) (suppression_list : String) :
    List String :=
  (if pyTruthyStr (CppCheckConfig.options c) then [CppCheckConfig.options c] else [])
  ++ (if c.add_ons then ["--dump"] else [])
  ++ (if pyTruthyStr suppression_list then ["--suppressions-list=" ++ suppression_list] else [])
  ++ [CppCheckConfig.threads c, CppCheckConfig.output_format c, CppCheckConfig.message_level c,
      CppCheckConfig.defines c, CppCheckConfig.un_defines c, CppCheckConfig.standard c,
      CppCheckConfig.platform c, CppCheckConfig.error_exit_code c, CppCheckConfig.includes c,
      CppCheckConfig.excludes c, CppCheckConfig.directories c, CppCheckConfig.files c]

/-! ### Helper lemmas -/

theorem str_eq_empty_iff (s : String) : s = "" ↔ s.data = [] := by
  cases s with
  | mk d =>
    constructor
    · intro h
      have hd : (String.mk d).data = ("" : String).data := by rw [h]
      simpa using hd
    · intro h
      subst h
      rfl

theorem pyTruthyStr_iff (s : String) : pyTruthyStr s = true ↔ s ≠ "" := by
  simp [pyTruthyStr, str_eq_empty_iff]

/-! ### Claim theorems -/

/-- C1: the claim says that with an empty (or null) suppression list,
`generate_suppression_list` returns a falsy sentinel and `build_command`
omits the `--suppressions-list` flag. In fact the `return` at the end of
`generate_suppression_list` runs with `act_out_file = None`, so
`os.path.commonprefix([os.getcwd(), None])` raises `TypeError`:
both `generate_suppression_list` and `build_command` raise instead of
producing a command without the flag, contradicting the function's own
documented `str or None` return contract. -/
theorem c1_empty_suppression_raises (env : PyEnv) (c : CppCheckRawConfig)
    (name results_dir : String) :
    CppCheckConfig.generate_suppression_list env { c with suppression := [] } name results_dir
      = ([], .error .typeError)
    ∧ (CppCheckConfig.build_command env { c with suppression := [] } name results_dir).2
      = .error .typeError := by
  refine ⟨rfl, ?_⟩
  simp [CppCheckConfig.build_command, CppCheckConfig.generate_suppression_list]

/-- C5: the claim says an entry with an empty `filename` degrades its
suppression line to the bare `error_id`, suppressing the error class
globally. In fact `os.path.isfile('')` is false, so the existence check
raises `RuntimeError("Invalid path: ")` before the `::`-collapsing logic
(which the source's comments dedicate to exactly this blank-filename case)
can ever run. Here every non-empty path exists, isolating the blank
filename as the cause. -/
theorem c5_blank_filename_raises :
    CppCheckConfig.generate_suppression_list envNonEmptyFiles
        { cfgBase with suppression := [⟨"nullPointer", "", "42", "x"⟩] } "n" "res"
      = ([("res/n_suppression_list.txt", "")], .error (.runtimeError "Invalid path: ")) := rfl

/-- C7: the claim says the version property resolves to `"unknown"` when
the tool's output is empty. In fact `version` unpacks the three-element
tuple returned by `cppcheck` (`return code, stdout, stderr`) into the two
targets `_, cmd_output`, which raises `ValueError` on every call — for any
environment whatsoever — before the output is ever examined. -/
theorem c7_version_always_raises (env : PyEnv) (cppcheck_exe : String) :
    CppCheck.version env cppcheck_exe = .error .valueError := rfl

/-- C9: when the requested configuration name is not among the loaded
configurations, `CppCheck.execute` returns 0 and performs no side effect:
no process invocation, no directory creation, no log-file write. -/
theorem c9_unknown_config_is_noop (env : PyEnv) (cppcheck_exe : String)
    (configurations : List (String × CppCheckRawConfig)) (config working_dir : String)
    (h : List.lookup config configurations = none) :
    CppCheck.execute env cppcheck_exe configurations config working_dir = ([], .ok 0) := by
  simp [CppCheck.execute, h]

/-- Witness for C9 at the empty configuration mapping. -/
theorem c9_unknown_config_is_noop_witness :
    CppCheck.execute envId "cppcheck" [] "missing" "/w" = ([], .ok 0) :=
  c9_unknown_config_is_noop envId "cppcheck" [] "missing" "/w" rfl

/-- C10: the output-format fragment is `--template="<output_template>"`
whenever `output_template` is non-null and non-empty, and
`--template="<output_format>"` otherwise — the user template takes
priority. -/
theorem c10_output_template_priority (c : CppCheckRawConfig) (t : String) :
    (CppCheckConfig.output_format { c with output_template := some t }
        = if t ≠ "" then "--template=\"" ++ t ++ "\""
          else "--template=\"" ++ c.output_format ++ "\"")
    ∧ CppCheckConfig.output_format { c with output_template := none }
        = "--template=\"" ++ c.output_format ++ "\"" := by
  constructor
  · by_cases h : t = ""
    · subst h
      rw [if_neg (by simp)]
      rfl
    · have ht : pyTruthyStr t = true := (pyTruthyStr_iff t).mpr h
      rw [if_pos h]
      show (if pyTruthyStr t = true then "--template=\"" ++ t ++ "\""
            else "--template=\"" ++ c.output_format ++ "\"") = "--template=\"" ++ t ++ "\""
      rw [ht, if_pos rfl]
  · rfl

theorem str_ext (a b : String) (h : a.data = b.data) : a = b := by
  cases a with
  | mk d =>
    cases b with
    | mk e => exact congrArg String.mk h

theorem str_data_append (a b : String) : (a ++ b).data = a.data ++ b.data := by
  cases a; cases b; rfl

/-- C8: for every configuration with `inplace` enabled and style `s`,
`build_file_command` returns exactly `-i -style=<s> ` followed by the
resolved absolute path of the file relative to the working directory. -/
theorem c8_build_file_command_inplace (env : PyEnv) (c : ClangFormatRawConfig)
    (s file working_dir : String) :
    ClangFormatConfig.build_file_command env { c with inplace := true, style := s }
        file working_dir
      = "-i -style=" ++ s ++ " " ++ env.realpath (osPathJoin working_dir file) := by
  refine str_ext _ _ ?_
  show ("-i" ++ " " ++ ("-style=" ++ s ++ " " ++ env.realpath (osPathJoin working_dir file))).data
    = ("-i -style=" ++ s ++ " " ++ env.realpath (osPathJoin working_dir file)).data
  have h1 : ∀ rest : List Char,
      "-i".data ++ (" ".data ++ ("-style=".data ++ rest)) = "-i -style=".data ++ rest := by
    intro rest
    rw [← List.append_assoc, ← List.append_assoc]
    exact congrArg (· ++ rest) rfl
  simp only [str_data_append, List.append_assoc]
  rw [h1]

/-- Counterexample to C2 as stated: with one suppression entry pointing at a
nonexistent file, `generate_suppression_list` does raise, but only after
`open(act_out_file, 'w')` has already created (truncated) the suppression
list file — here the write trace holds the created file with empty content,
so "no suppression-list file is created or modified" is false. -/
theorem c2_counterexample :
    CppCheckConfig.generate_suppression_list envNoFiles
        { cfgBase with suppression := [⟨"id1", "nope", "7", "c1"⟩] } "n" "res"
      = ([("res/n_suppression_list.txt", "")], .error (.runtimeError "Invalid path: nope"))
    ∧ ([("res/n_suppression_list.txt", "")] : List (String × String)) ≠ [] :=
  ⟨rfl, by simp⟩

/-- Counterexample to C3 as stated: a configuration whose free-form
`options` list contains `-j` yields a command with two `-j` tokens, so
"exactly one `-j` flag for every AnalyzerConfig" is false. -/
theorem c3_counterexample :
    ((CppCheckConfig.build_command envId { cfgBase with options := ["-j"] }
        "n" "res").2.toOption.map jCount) = some 2 := rfl

/-- Counterexample to C4 as stated: for an entry with `error_id =
"nullPointer"`, `line = 42`, `comment = "x"` and the existing relative
filename `rel/f.c`, the generated chunk is `// x`, then
`nullPointer:rel/f.c:42` — the expanded filename verbatim, not an absolute
path — and then a trailing blank line, so the file does not consist of
exactly the two claimed lines. -/
theorem c4_counterexample :
    (CppCheckConfig.generate_suppression_list envId
        { cfgBase with suppression := [⟨"nullPointer", "rel/f.c", "42", "x"⟩] } "n" "res").1
      = [("res/n_suppression_list.txt", "// x\nnullPointer:rel/f.c:42\n\n")]
    ∧ linesOf "// x\nnullPointer:rel/f.c:42\n\n"
      = ["// x", "nullPointer:rel/f.c:42", "", ""] :=
  ⟨rfl, rfl⟩

theorem runLoop_spec (env : PyEnv) (wd : String) (cmdOf : α → String)
    (l : List α) (rest : List String) :
    clangExecuteSpec env wd (l.map cmdOf ++ rest)
      = combineRun (ClangFormatter.runLoop env wd cmdOf l) (clangExecuteSpec env wd rest) := by
  induction l with
  | nil => simp [ClangFormatter.runLoop, combineRun]
  | cons x xs ih =>
    by_cases hs : (env.shell (cmdOf x) wd).2.2 = ""
    · rcases h : ClangFormatter.runLoop env wd cmdOf xs with ⟨o, tr⟩
      have key : clangExecuteSpec env wd (List.map cmdOf (x :: xs) ++ rest)
          = ((clangExecuteSpec env wd (List.map cmdOf xs ++ rest)).1,
             cmdOf x :: (clangExecuteSpec env wd (List.map cmdOf xs ++ rest)).2) := by
        simp [clangExecuteSpec, hs, List.append_eq]
      have keyr : ClangFormatter.runLoop env wd cmdOf (x :: xs) = (o, cmdOf x :: tr) := by
        simp [ClangFormatter.runLoop, hs, h]
      rw [key, ih, h, keyr]
      cases o <;> simp [combineRun]
    · rcases hr : env.shell (cmdOf x) wd with ⟨rc0, out0, err0⟩
      have he : err0 ≠ "" := by
        intro hcon
        exact hs (by rw [hr, hcon])
      simp only [List.map_cons, List.cons_append, clangExecuteSpec,
        ClangFormatter.runLoop, hr, if_pos he, combineRun]

theorem clangExecuteSpec_all_clean (env : PyEnv) (wd : String) :
    ∀ l : List String, (∀ cmd ∈ l, (env.shell cmd wd).2.2 = "") →
      clangExecuteSpec env wd l = (0, l) := by
  intro l
  induction l with
  | nil => intro _; rfl
  | cons x xs ih =>
    intro h
    have hx : (env.shell x wd).2.2 = "" := h x (List.mem_cons_self x xs)
    have hxs := ih fun cmd hc => h cmd (List.mem_cons_of_mem x hc)
    simp [clangExecuteSpec, hx, hxs]

/-- C6: `ClangFormatter.execute` behaves exactly as specified: it runs the
per-file commands then the per-directory commands in order, and any
invocation with non-empty stderr is a hard stop — the remaining files and
directories are skipped and that step's exit code is returned (the returned
trace is cut at that command); when every invocation produces empty stderr
it returns 0 after running all commands. -/
theorem c6_execute_stops_on_stderr (env : PyEnv) (c : ClangFormatRawConfig)
    (clang_format_exe project_file_dir working_dir : String) :
    ClangFormatter.execute env c clang_format_exe project_file_dir working_dir
      = clangExecuteSpec env working_dir
          (ClangFormatter.allCommands env c clang_format_exe project_file_dir)
    ∧ ((∀ cmd ∈ ClangFormatter.allCommands env c clang_format_exe project_file_dir,
          (env.shell cmd working_dir).2.2 = "") →
        ClangFormatter.execute env c clang_format_exe project_file_dir working_dir
          = (0, ClangFormatter.allCommands env c clang_format_exe project_file_dir)) := by
  have hmain : ClangFormatter.execute env c clang_format_exe project_file_dir working_dir
      = clangExecuteSpec env working_dir
          (ClangFormatter.allCommands env c clang_format_exe project_file_dir) := by
    have h1 := runLoop_spec env working_dir
      (ClangFormatter.fileCommand env c clang_format_exe project_file_dir) c.files
      (c.directories.map (ClangFormatter.dirCommand env c clang_format_exe project_file_dir))
    have h2 := runLoop_spec env working_dir
      (ClangFormatter.dirCommand env c clang_format_exe project_file_dir) c.directories []
    rw [List.append_nil] at h2
    rw [ClangFormatter.allCommands, h1, h2]
    rcases hf : ClangFormatter.runLoop env working_dir
        (ClangFormatter.fileCommand env c clang_format_exe project_file_dir) c.files
      with ⟨o1, t1⟩
    rcases hd : ClangFormatter.runLoop env working_dir
        (ClangFormatter.dirCommand env c clang_format_exe project_file_dir) c.directories
      with ⟨o2, t2⟩
    cases o1 <;> cases o2 <;>
      simp [ClangFormatter.execute, hf, hd, combineRun, clangExecuteSpec]
  refine ⟨hmain, fun hclean => ?_⟩
  rw [hmain, clangExecuteSpec_all_clean env working_dir _ hclean]

/-- Witness for C6: in a quiet world every command runs and 0 is returned. -/
theorem c6_execute_stops_on_stderr_witness :
    ClangFormatter.execute envId cfgCF "clang-format" "/p" "/w"
      = (0, ClangFormatter.allCommands envId cfgCF "clang-format" "/p") :=
  (c6_execute_stops_on_stderr envId cfgCF "clang-format" "/p" "/w").2 (by
    intro cmd _
    rfl)

theorem str_append_empty (s : String) : s ++ "" = s := by
  refine str_ext _ _ ?_
  rw [str_data_append]
  exact List.append_nil _

theorem str_empty_append (s : String) : "" ++ s = s := by
  refine str_ext _ _ ?_
  rw [str_data_append]
  rfl

theorem str_append_assoc (a b c : String) : a ++ b ++ c = a ++ (b ++ c) := by
  refine str_ext _ _ ?_
  simp [str_data_append]

theorem suppressionLoop_acc (env : PyEnv) :
    ∀ (l : List SuppressionEntry) (acc : String),
      CppCheckConfig.suppressionLoop env l acc
        = (acc ++ (CppCheckConfig.suppressionLoop env l "").1,
           (CppCheckConfig.suppressionLoop env l "").2) := by
  intro l
  induction l with
  | nil => intro acc; simp [CppCheckConfig.suppressionLoop, str_append_empty]
  | cons x xs ih =>
    intro acc
    cases hr : CppCheckConfig.renderSuppressionEntry env x with
    | error e => simp [CppCheckConfig.suppressionLoop, hr, str_append_empty]
    | ok chunk =>
      simp only [CppCheckConfig.suppressionLoop, hr]
      rw [ih (acc ++ chunk), ih ("" ++ chunk)]
      rw [str_empty_append, str_append_assoc]

theorem suppressionLoop_fail (env : PyEnv) :
    ∀ (pre : List SuppressionEntry) (bad : SuppressionEntry) (rest : List SuppressionEntry)
      (acc : String),
      (∀ e ∈ pre, env.isFile (env.expandvars e.filename) = true) →
      env.isFile (env.expandvars bad.filename) = false →
      CppCheckConfig.suppressionLoop env (pre ++ bad :: rest) acc
        = (acc ++ (CppCheckConfig.suppressionLoop env pre "").1,
           some (.runtimeError ("Invalid path: " ++ env.expandvars bad.filename))) := by
  intro pre
  induction pre with
  | nil =>
    intro bad rest acc _ hbad
    simp [CppCheckConfig.suppressionLoop, CppCheckConfig.renderSuppressionEntry, hbad,
      str_append_empty]
  | cons e pre ih =>
    intro bad rest acc hpre hbad
    have he : env.isFile (env.expandvars e.filename) = true := hpre e (by simp)
    have hpre' : ∀ e' ∈ pre, env.isFile (env.expandvars e'.filename) = true :=
      fun e' h' => hpre e' (by simp [h'])
    have hr : CppCheckConfig.renderSuppressionEntry env e
        = .ok ("// " ++ e.comment ++ "\n"
            ++ pyStrip ':' (beforeFirst "::"
                (e.error_id ++ ":" ++ env.expandvars e.filename ++ ":" ++ e.line))
            ++ "\n\n") := by
      simp [CppCheckConfig.renderSuppressionEntry, he]
    simp only [List.cons_append, CppCheckConfig.suppressionLoop, hr, List.append_eq]
    rw [ih bad rest _ hpre' hbad]
    generalize ("// " ++ e.comment ++ "\n"
        ++ pyStrip ':' (beforeFirst "::"
            (e.error_id ++ ":" ++ env.expandvars e.filename ++ ":" ++ e.line))
        ++ "\n\n") = k
    rw [str_empty_append, suppressionLoop_acc env pre k, str_append_assoc]

/-- C2 (amended): when the suppression list contains an entry whose
environment-variable-expanded filename is not an existing file,
`generate_suppression_list` raises `RuntimeError` at the first such entry —
before any process could be invoked — but it is not atomic: the
suppression-list file has already been created (truncated) by
`open(act_out_file, 'w')`, and on the error path it holds exactly the
rendered chunks of the valid entries preceding the bad one. -/
theorem c2_raises_but_file_created (env : PyEnv) (c : CppCheckRawConfig)
    (name results_dir : String) (pre : List SuppressionEntry) (bad : SuppressionEntry)
    (rest : List SuppressionEntry)
    (hsup : c.suppression = pre ++ bad :: rest)
    (hpre : ∀ e ∈ pre, env.isFile (env.expandvars e.filename) = true)
    (hbad : env.isFile (env.expandvars bad.filename) = false) :
    CppCheckConfig.generate_suppression_list env c name results_dir
      = ([(osPathJoin results_dir (name ++ "_suppression_list.txt"),
           (CppCheckConfig.suppressionLoop env pre "").1)],
         .error (.runtimeError ("Invalid path: " ++ env.expandvars bad.filename))) := by
  have hne : c.suppression.isEmpty = false := by
    rw [hsup]; cases pre <;> rfl
  unfold CppCheckConfig.generate_suppression_list
  rw [hne]
  simp only [Bool.false_eq_true, if_false]
  rw [hsup, suppressionLoop_fail env pre bad rest "" hpre hbad, str_empty_append]

/-- Witness for C2 (amended): the valid first entry is flushed to the
created file and the error names the second entry's path. -/
theorem c2_raises_but_file_created_witness :
    CppCheckConfig.generate_suppression_list envGoodOnly cfgC2W "n" "res"
      = ([("res/n_suppression_list.txt", "// c1\nid1:good:1\n\n")],
         .error (.runtimeError "Invalid path: bad")) :=
  (c2_raises_but_file_created envGoodOnly cfgC2W "n" "res"
    [⟨"id1", "good", "1", "c1"⟩] ⟨"id2", "bad", "2", "c2"⟩ [] rfl (by decide) (by decide)).trans
    (by rfl)

theorem bfa_no_colon (l : List Char) (h : ∀ ch ∈ l, ch ≠ ':') (t : List Char) :
    beforeFirstAux [':', ':'] (l ++ t) = l ++ beforeFirstAux [':', ':'] t := by
  induction l with
  | nil => rfl
  | cons x xs ih =>
    have hx : x ≠ ':' := h x (by simp)
    have hxs : ∀ ch ∈ xs, ch ≠ ':' := fun ch hc => h ch (by simp [hc])
    have hbx : ((':' : Char) == x) = false := beq_eq_false_iff_ne.mpr (Ne.symm hx)
    have hpre : (List.isPrefixOf [':', ':'] (x :: (xs ++ t))) = false := by
      show ((':' == x) && List.isPrefixOf [':'] (xs ++ t)) = false
      rw [hbx]
      rfl
    simp [beforeFirstAux, hpre, ih hxs]

theorem bfa_colon_cons (c : Char) (hc : c ≠ ':') (rest : List Char) :
    beforeFirstAux [':', ':'] (':' :: c :: rest)
      = ':' :: beforeFirstAux [':', ':'] (c :: rest) := by
  have hbc : ((':' : Char) == c) = false := beq_eq_false_iff_ne.mpr (Ne.symm hc)
  have hpre : (List.isPrefixOf [':', ':'] (':' :: c :: rest)) = false := by
    show ((':' == ':') && ((':' == c) && List.isPrefixOf ([] : List Char) rest)) = false
    rw [hbc]
    rfl
  simp [beforeFirstAux, hpre]

theorem pyStrip_colon_shape (x y : Char) (hx : x ≠ ':') (hy : y ≠ ':') (mid : List Char) :
    pyStrip ':' ⟨x :: (mid ++ [y])⟩ = ⟨x :: (mid ++ [y])⟩ := by
  refine str_ext _ _ ?_
  show (((x :: (mid ++ [y])).dropWhile (· = ':')).reverse.dropWhile (· = ':')).reverse
    = x :: (mid ++ [y])
  have h1 : (x :: (mid ++ [y])).dropWhile (· = ':') = x :: (mid ++ [y]) := by
    rw [List.dropWhile_cons]
    simp [hx]
  have h2 : (x :: (mid ++ [y])).reverse = y :: (mid.reverse ++ [x]) := by
    rw [List.reverse_cons, List.reverse_append]
    simp
  have h3 : (y :: (mid.reverse ++ [x])).dropWhile (· = ':') = y :: (mid.reverse ++ [x]) := by
    rw [List.dropWhile_cons]
    simp [hy]
  rw [h1, h2, h3, List.reverse_cons, List.reverse_append]
  simp

theorem render_line_verbatim (fn' : String) (hne : fn'.data ≠ [])
    (hcolon : ∀ ch ∈ fn'.data, ch ≠ ':') :
    pyStrip ':' (beforeFirst "::" ("nullPointer" ++ ":" ++ fn' ++ ":" ++ "42"))
      = "nullPointer" ++ ":" ++ fn' ++ ":" ++ "42" := by
  obtain ⟨fc, ftl, hf⟩ : ∃ fc ftl, fn'.data = fc :: ftl := by
    cases hd : fn'.data with
    | nil => exact absurd hd hne
    | cons a b => exact ⟨a, b, rfl⟩
  have hfc : fc ≠ ':' := hcolon fc (by rw [hf]; simp)
  have hftl : ∀ ch ∈ fc :: ftl, ch ≠ ':' := by
    rw [← hf]
    exact hcolon
  have hcd : (":" : String).data = [':'] := rfl
  have h42 : ("42" : String).data = ['4', '2'] := rfl
  have hnp : ("nullPointer" : String).data = 'n' :: ("ullPointer" : String).data := rfl
  have hdata : ("nullPointer" ++ ":" ++ fn' ++ ":" ++ "42").data
      = "nullPointer".data ++ (':' :: (fn'.data ++ (':' :: ['4', '2']))) := by
    simp [str_data_append, hcd, h42, List.append_assoc]
  have hbfs : beforeFirst "::" ("nullPointer" ++ ":" ++ fn' ++ ":" ++ "42")
      = "nullPointer" ++ ":" ++ fn' ++ ":" ++ "42" := by
    refine str_ext _ _ ?_
    show beforeFirstAux [':', ':'] (("nullPointer" ++ ":" ++ fn' ++ ":" ++ "42").data)
      = ("nullPointer" ++ ":" ++ fn' ++ ":" ++ "42").data
    rw [hdata, bfa_no_colon "nullPointer".data (by decide), hf]
    show "nullPointer".data ++ beforeFirstAux [':', ':'] (':' :: fc :: (ftl ++ (':' :: ['4', '2'])))
      = "nullPointer".data ++ (':' :: ((fc :: ftl) ++ (':' :: ['4', '2'])))
    rw [bfa_colon_cons fc hfc]
    rw [show fc :: (ftl ++ (':' :: ['4', '2'])) = (fc :: ftl) ++ (':' :: ['4', '2']) from rfl]
    rw [bfa_no_colon (fc :: ftl) hftl]
    rw [show beforeFirstAux [':', ':'] (':' :: ['4', '2']) = ':' :: ['4', '2'] by decide]
  rw [hbfs]
  have hshape : ("nullPointer" ++ ":" ++ fn' ++ ":" ++ "42").data
      = 'n' :: ((("ullPointer" : String).data ++ (':' :: (fn'.data ++ [':', '4']))) ++ ['2']) := by
    rw [hdata, hnp]
    simp [List.append_assoc]
  have hs : ("nullPointer" ++ ":" ++ fn' ++ ":" ++ "42")
      = (⟨'n' :: ((("ullPointer" : String).data ++ (':' :: (fn'.data ++ [':', '4']))) ++ ['2'])⟩ : String) :=
    str_ext _ _ hshape
  rw [hs]
  exact pyStrip_colon_shape 'n' '2' (by decide) (by decide) _

/-- C4 (amended): for a suppression entry with `error_id = "nullPointer"`,
`line = 42`, any comment, and a filename whose environment-variable
expansion is a non-empty, colon-free path naming an existing file,
`generate_suppression_list` writes for that entry the comment line
`// <comment>`, the suppression line `nullPointer:<expanded filename>:42` —
the expanded filename verbatim, not converted to an absolute path — and a
trailing blank separator line (the two `f.write` calls emit
`// <comment>\n` and `<line>\n\n`). -/
theorem c4_two_lines_verbatim (env : PyEnv) (c : CppCheckRawConfig)
    (name results_dir fn comment : String)
    (hsup : c.suppression = [⟨"nullPointer", fn, "42", comment⟩])
    (hfile : env.isFile (env.expandvars fn) = true)
    (hne : (env.expandvars fn).data ≠ [])
    (hcolon : ∀ ch ∈ (env.expandvars fn).data, ch ≠ ':') :
    CppCheckConfig.generate_suppression_list env c name results_dir
      = ([(osPathJoin results_dir (name ++ "_suppression_list.txt"),
           "// " ++ comment ++ "\n"
             ++ ("nullPointer" ++ ":" ++ env.expandvars fn ++ ":" ++ "42") ++ "\n\n")],
         .ok (env.relpath (osPathJoin results_dir (name ++ "_suppression_list.txt"))
               (commonPrefix2 env.cwd
                 (osPathJoin results_dir (name ++ "_suppression_list.txt"))))) := by
  have hr : CppCheckConfig.renderSuppressionEntry env ⟨"nullPointer", fn, "42", comment⟩
      = .ok ("// " ++ comment ++ "\n"
          ++ ("nullPointer" ++ ":" ++ env.expandvars fn ++ ":" ++ "42") ++ "\n\n") := by
    have hlit : ("nullPointer:" : String) = "nullPointer" ++ ":" := rfl
    simp [CppCheckConfig.renderSuppressionEntry, hfile]
    rw [hlit, render_line_verbatim (env.expandvars fn) hne hcolon]
  have hempty : c.suppression.isEmpty = false := by rw [hsup]; rfl
  unfold CppCheckConfig.generate_suppression_list
  rw [hempty]
  simp only [Bool.false_eq_true, if_false]
  rw [hsup]
  simp only [CppCheckConfig.suppressionLoop, hr]
  rw [str_empty_append]

/-- Witness for C4 (amended) at the relative path `src/a.c`. -/
theorem c4_two_lines_verbatim_witness :
    CppCheckConfig.generate_suppression_list envId
        { cfgBase with suppression := [⟨"nullPointer", "src/a.c", "42", "x"⟩] } "n" "res"
      = ([("res/n_suppression_list.txt", "// x\nnullPointer:src/a.c:42\n\n")],
         .ok "res/n_suppression_list.txt") :=
  (c4_two_lines_verbatim envId
      { cfgBase with suppression := [⟨"nullPointer", "src/a.c", "42", "x"⟩] }
      "n" "res" "src/a.c" "x" rfl rfl (by decide) (by decide)).trans (by rfl)

theorem splitChar_ne_nil (c : Char) (l : List Char) : splitChar c l ≠ [] := by
  induction l with
  | nil => simp [splitChar]
  | cons x xs ih =>
    by_cases h : x = c
    · simp [splitChar, h]
    · cases hs : splitChar c xs with
      | nil => exact absurd hs ih
      | cons y ys => simp [splitChar, h, hs]

theorem splitChar_append (c : Char) (a b : List Char) :
    splitChar c (a ++ c :: b) = splitChar c a ++ splitChar c b := by
  induction a with
  | nil => simp [splitChar]
  | cons x xs ih =>
    by_cases h : x = c
    · subst h
      simp [splitChar, ih]
    · cases hx : splitChar c xs with
      | nil => exact absurd hx (splitChar_ne_nil c xs)
      | cons z zs =>
        simp only [List.cons_append, splitChar, if_neg h, List.append_eq]
        rw [ih, hx]
        rfl

theorem tokensSp_append (x y : String) :
    tokensSp (x ++ " " ++ y) = tokensSp x ++ tokensSp y := by
  unfold tokensSp
  have hd : (x ++ " " ++ y).data = x.data ++ (' ' :: y.data) := by
    rw [str_data_append, str_data_append]
    rw [show (" " : String).data = [' '] from rfl]
    simp [List.append_assoc]
  rw [hd, splitChar_append, List.map_append]

theorem jCount_append_space (x y : String) : jCount (x ++ " " ++ y) = jCount x + jCount y := by
  unfold jCount
  rw [tokensSp_append, List.count_append]

theorem jCount_pyJoin : ∀ l : List String, l ≠ [] →
    jCount (pyJoin " " l) = (l.map jCount).sum := by
  intro l
  induction l with
  | nil => intro h; exact absurd rfl h
  | cons a rest ih =>
    intro _
    cases rest with
    | nil => simp [pyJoin]
    | cons b r =>
      rw [show pyJoin " " (a :: b :: r) = a ++ " " ++ pyJoin " " (b :: r) from rfl]
      rw [jCount_append_space, ih (by simp)]
      simp

theorem jCount_dash_j (s : String) : jCount ("-j " ++ s) = 1 + jCount s := by
  unfold jCount tokensSp
  have hd : ("-j " ++ s).data = ['-', 'j'] ++ (' ' :: s.data) := by
    rw [str_data_append]
    rfl
  rw [hd, splitChar_append, List.map_append, List.count_append]
  rw [show ((splitChar ' ' ['-', 'j']).map fun l => (⟨l⟩ : String)) = ["-j"] from by decide]
  simp

/-- C3 (amended): whenever `generate_suppression_list` succeeds and none of
the configured fragments other than the thread fragment contributes a `-j`
token (nor does the rendered thread count itself), the command built by
`build_command` is exactly the space-join of the fragments in the fixed
claimed order — options, `--dump` (if add-ons), `--suppressions-list=<path>`
(if generated non-empty), then threads, output format, message levels,
defines, un-defines, standard, platform, error-exit-code, includes,
excludes, directories, files — and it contains exactly one `-j` token. -/
theorem c3_ordered_single_j (env : PyEnv) (c : CppCheckRawConfig) (name results_dir : String)
    (w : List (String × String)) (sl : String)
    (hsl : CppCheckConfig.generate_suppression_list env c name results_dir = (w, .ok sl))
    (hfrag : ∀ f ∈ [CppCheckConfig.output_format c, CppCheckConfig.message_level c,
        CppCheckConfig.defines c, CppCheckConfig.un_defines c, CppCheckConfig.standard c,
        CppCheckConfig.platform c, CppCheckConfig.error_exit_code c, CppCheckConfig.includes c,
        CppCheckConfig.excludes c, CppCheckConfig.directories c, CppCheckConfig.files c,
        CppCheckConfig.options c, "--suppressions-list=" ++ sl], jCount f = 0)
    (hth : jCount (toString c.threads) = 0) :
    (CppCheckConfig.build_command env c name results_dir).2
        = .ok (pyJoin " " (CppCheckConfig.orderedFragments c sl))
    ∧ jCount (pyJoin " " (CppCheckConfig.orderedFragments c sl)) = 1 := by
  constructor
  · cases hsup : pyTruthyStr sl <;> cases hadd : c.add_ons <;>
      cases hopt : pyTruthyStr (CppCheckConfig.options c) <;>
      simp [CppCheckConfig.build_command, hsl, CppCheckConfig.orderedFragments,
        hsup, hadd, hopt, pyJoin]
  · have hnil : CppCheckConfig.orderedFragments c sl ≠ [] := by
      intro hcon
      have hl := congrArg List.length hcon
      simp [CppCheckConfig.orderedFragments] at hl
    rw [jCount_pyJoin _ hnil]
    have hthr : jCount (CppCheckConfig.threads c) = 1 := by
      unfold CppCheckConfig.threads
      rw [jCount_dash_j, hth]
    have h01 : jCount (CppCheckConfig.output_format c) = 0 := hfrag _ (by simp)
    have h02 : jCount (CppCheckConfig.message_level c) = 0 := hfrag _ (by simp)
    have h03 : jCount (CppCheckConfig.defines c) = 0 := hfrag _ (by simp)
    have h04 : jCount (CppCheckConfig.un_defines c) = 0 := hfrag _ (by simp)
    have h05 : jCount (CppCheckConfig.standard c) = 0 := hfrag _ (by simp)
    have h06 : jCount (CppCheckConfig.platform c) = 0 := hfrag _ (by simp)
    have h07 : jCount (CppCheckConfig.error_exit_code c) = 0 := hfrag _ (by simp)
    have h08 : jCount (CppCheckConfig.includes c) = 0 := hfrag _ (by simp)
    have h09 : jCount (CppCheckConfig.excludes c) = 0 := hfrag _ (by simp)
    have h10 : jCount (CppCheckConfig.directories c) = 0 := hfrag _ (by simp)
    have h11 : jCount (CppCheckConfig.files c) = 0 := hfrag _ (by simp)
    have h12 : jCount (CppCheckConfig.options c) = 0 := hfrag _ (by simp)
    have h13 : jCount ("--suppressions-list=" ++ sl) = 0 := hfrag _ (by simp)
    have h14 : jCount "--dump" = 0 := by decide
    cases hsup : pyTruthyStr sl <;> cases hadd : c.add_ons <;>
      cases hopt : pyTruthyStr (CppCheckConfig.options c) <;>
      simp [CppCheckConfig.orderedFragments, hsup, hadd, hopt, hthr,
        h01, h02, h03, h04, h05, h06, h07, h08, h09, h10, h11, h12, h13, h14]

/-- Witness for C3 (amended) at `cfgBase` in the identity world. -/
theorem c3_ordered_single_j_witness :
    (CppCheckConfig.build_command envId cfgBase "n" "res").2
        = .ok (pyJoin " " (CppCheckConfig.orderedFragments cfgBase "res/n_suppression_list.txt"))
    ∧ jCount (pyJoin " "
        (CppCheckConfig.orderedFragments cfgBase "res/n_suppression_list.txt")) = 1 :=
  c3_ordered_single_j envId cfgBase "n" "res"
    [("res/n_suppression_list.txt", "// c1\nid1:good:1\n\n")] "res/n_suppression_list.txt"
    rfl (by decide) (by decide)
